import Mathlib

/-!
Shallow embedding of the rlox compiler and virtual machine (a Rust port of
the clox bytecode interpreter) together with theorems settling the frozen
claims against the code.

Conventions of the embedding:
  - Rust functions become Lean functions over explicit state values.
  - Byte strings are lists of byte values (Nat); Rust indexing panics are
    modelled by the Res.panic outcome, recoverable runtime errors by
    Res.rtError, and loop fuel exhaustion (never hit on the concrete inputs
    used below) by Res.fuel.
  - The f64 payload of Value::Double is abstracted to Int: no claim settled
    here depends on floating-point rounding, only on the constructor tags.
  - Heap-shared payloads (Function, Closure, NativeFunction) are abstracted
    to opaque Nat identities; no claim inspects their contents.
-/

namespace Rlox

/-- Outcome of running a piece of embedded code: normal result, recoverable
runtime error (Rust Err), Rust panic (out-of-bounds index, integer
underflow in a debug build, Option::unwrap on None), or fuel exhaustion of
the embedding (never reached with the fuel budgets used). -/
inductive Res (α : Type) where
  | ok : α → Res α
  | rtError : String → Res α
  | panic : Res α
  | fuel : Res α
deriving DecidableEq

/-- error.rs EMPTY_STACK. -/
def EMPTY_STACK : String := "Error: empty stack"

/-- error.rs OPERAND_MUST_BE_NUMBER. -/
def OPERAND_MUST_BE_NUMBER : String := "Operand must be a number"

/-- error.rs ALREADY_VARIABLE_DELCARE. -/
def ALREADY_VARIABLE_DELCARE : String := "Already variable with this name in this scope"

/-- Byte view of an ASCII source string, mirroring str::as_bytes in
scanner.rs (all concrete inputs used below are ASCII). -/
def bytes (s : String) : List Nat := s.toList.map (fun c => c.toNat)

/-- token.rs TokenType. -/
inductive TokenType where
  | LeftParen | RightParen | LeftBrace | RightBrace | Comma | Dot | Minus | Plus
  | SemiColon | Slash | Star | Bang | BangEqual | Greater | GreaterEqual
  | Less | LessEqual | Identifier | String | Number
  | And | Class | Else | False | For | Fun | If | Nil | Or | Print | Return
  | Super | This | True | Var | While | Equal | EqualEqual | Error | Eof
deriving DecidableEq

/-- token.rs Token: the lexeme is the byte slice the Rust code stores. -/
structure Token where
  token_type : TokenType
  lexeme : List Nat
  line : Nat
deriving DecidableEq

/-- scanner.rs Scanner state. -/
structure Scanner where
  source : List Nat
  current : Nat
  start : Nat
  line : Nat
deriving DecidableEq

/-- util.rs is_digit: byte between b0 (48) and b9 (57). -/
def is_digit (c : Nat) : Bool := 48 ≤ c && c ≤ 57

/-- util.rs is_alpha: ASCII letter or underscore (95). -/
def is_alpha (c : Nat) : Bool :=
  (97 ≤ c && c ≤ 122) || (65 ≤ c && c ≤ 90) || c == 95

/-- scanner.rs Scanner::is_at_end: current at or past the end of source. -/
def Scanner.is_at_end (s : Scanner) : Bool := s.source.length ≤ s.current

/-- scanner.rs Scanner::peek: unchecked indexing of source at current; out
of bounds is a Rust panic. -/
def Scanner.peek (s : Scanner) : Res Nat :=
  match s.source.get? s.current with
  | some c => Res.ok c
  | none => Res.panic

/-- scanner.rs Scanner::peek_next: bounds-checked lookahead, 0 past end. -/
def Scanner.peek_next (s : Scanner) : Nat :=
  if s.current + 1 < s.source.length then s.source.getD (s.current + 1) 0
  else 0

/-- scanner.rs Scanner::match_byte: is_at_end is checked first, so this
never panics; on a match current advances. -/
def Scanner.match_byte (s : Scanner) (c : Nat) : Bool × Scanner :=
  if s.is_at_end then (false, s)
  else
    match s.source.get? s.current with
    | none => (false, s)
    | some p =>
      if p == c then (true, { s with current := s.current + 1 })
      else (false, s)

/-- scanner.rs Scanner::token: builds the token for the slice from start to
current; Eof carries an empty lexeme, Error a fixed diagnostic, String the
body without the quotes. -/
def Scanner.token (s : Scanner) (tt : TokenType) : Token :=
  match tt with
  | TokenType.Eof => ⟨tt, [], s.line⟩
  | TokenType.Error => ⟨tt, bytes "Unexpected character", s.line⟩
  | TokenType.String =>
      ⟨tt, (s.source.drop (s.start + 1)).take (s.current - 1 - (s.start + 1)), s.line⟩
  | _ => ⟨tt, (s.source.drop s.start).take (s.current - s.start), s.line⟩

/-- Inner while of the comment arm of skip_whitespace: is_at_end is checked
before peek there, so it cannot panic. -/
def Scanner.skip_comment : Nat → Scanner → Res Scanner
  | 0, _ => Res.fuel
  | fuel + 1, s =>
    if s.is_at_end then Res.ok s
    else
      match s.source.get? s.current with
      | none => Res.ok s
      | some c =>
        if c == 10 then Res.ok s
        else Scanner.skip_comment fuel { s with current := s.current + 1 }

/-- scanner.rs Scanner::skip_whitespace: the loop starts with an UNGUARDED
peek, so running it with current at or past the end of source panics. -/
def Scanner.skip_whitespace : Nat → Scanner → Res Scanner
  | 0, _ => Res.fuel
  | fuel + 1, s =>
    match s.source.get? s.current with
    | none => Res.panic
    | some c =>
      if c == 13 || c == 32 || c == 9 then
        Scanner.skip_whitespace fuel { s with current := s.current + 1 }
      else if c == 10 then
        Scanner.skip_whitespace fuel { s with line := s.line + 1, current := s.current + 1 }
      else if c == 47 then
        if s.peek_next == 47 then
          match Scanner.skip_comment fuel s with
          | Res.ok s2 => Scanner.skip_whitespace fuel s2
          | Res.rtError e => Res.rtError e
          | Res.panic => Res.panic
          | Res.fuel => Res.fuel
        else Res.ok s
      else Res.ok s

/-- Identifier loop of scanner.rs identifier_token: peek runs before the
is_at_end test, so an identifier reaching the end of input panics. -/
def Scanner.ident_loop : Nat → Scanner → Res Scanner
  | 0, _ => Res.fuel
  | fuel + 1, s =>
    match s.source.get? s.current with
    | none => Res.panic
    | some c =>
      if is_alpha c || is_digit c then
        Scanner.ident_loop fuel { s with current := s.current + 1 }
      else Res.ok s

/-- Keyword table of scanner.rs identifier_token. -/
def keyword_type (lex : List Nat) : TokenType :=
  if lex == bytes "and" then TokenType.And
  else if lex == bytes "class" then TokenType.Class
  else if lex == bytes "else" then TokenType.Else
  else if lex == bytes "if" then TokenType.If
  else if lex == bytes "nil" then TokenType.Nil
  else if lex == bytes "or" then TokenType.Or
  else if lex == bytes "print" then TokenType.Print
  else if lex == bytes "return" then TokenType.Return
  else if lex == bytes "super" then TokenType.Super
  else if lex == bytes "var" then TokenType.Var
  else if lex == bytes "while" then TokenType.While
  else if lex == bytes "false" then TokenType.False
  else if lex == bytes "for" then TokenType.For
  else if lex == bytes "fun" then TokenType.Fun
  else if lex == bytes "this" then TokenType.This
  else if lex == bytes "true" then TokenType.True
  else TokenType.Identifier

/-- scanner.rs Scanner::identifier_token. -/
def Scanner.identifier_token (fuel : Nat) (s : Scanner) : Res (Token × Scanner) :=
  match Scanner.ident_loop fuel s with
  | Res.ok s2 =>
    let lex := (s2.source.drop s2.start).take (s2.current - s2.start)
    Res.ok (s2.token (keyword_type lex), s2)
  | Res.rtError e => Res.rtError e
  | Res.panic => Res.panic
  | Res.fuel => Res.fuel

/-- Digit loop of scanner.rs number_token: peek runs before the is_at_end
test, so a number reaching the end of input panics. -/
def Scanner.digit_loop : Nat → Scanner → Res Scanner
  | 0, _ => Res.fuel
  | fuel + 1, s =>
    match s.source.get? s.current with
    | none => Res.panic
    | some c =>
      if is_digit c then Scanner.digit_loop fuel { s with current := s.current + 1 }
      else Res.ok s

/-- scanner.rs Scanner::number_token: integer digits, then an optional
fractional part introduced by a dot (46) followed by a digit. -/
def Scanner.number_token (fuel : Nat) (s : Scanner) : Res (Token × Scanner) :=
  match Scanner.digit_loop fuel s with
  | Res.ok s2 =>
    if (match s2.source.get? s2.current with
        | some c => c == 46
        | none => false)
        && is_digit s2.peek_next then
      match Scanner.digit_loop fuel { s2 with current := s2.current + 1 } with
      | Res.ok s3 => Res.ok (s3.token TokenType.Number, s3)
      | Res.rtError e => Res.rtError e
      | Res.panic => Res.panic
      | Res.fuel => Res.fuel
    else Res.ok (s2.token TokenType.Number, s2)
  | Res.rtError e => Res.rtError e
  | Res.panic => Res.panic
  | Res.fuel => Res.fuel

/-- Body loop of scanner.rs string_token: stops at a closing quote (34);
peek runs before the is_at_end test, so an unterminated string panics. -/
def Scanner.string_loop : Nat → Scanner → Res Scanner
  | 0, _ => Res.fuel
  | fuel + 1, s =>
    match s.source.get? s.current with
    | none => Res.panic
    | some c =>
      if c == 34 then Res.ok s
      else if c == 10 then
        Scanner.string_loop fuel { s with line := s.line + 1, current := s.current + 1 }
      else Scanner.string_loop fuel { s with current := s.current + 1 }

/-- scanner.rs Scanner::string_token; the is_at_end branch after the loop
is kept from the source although the loop only exits on a quote. -/
def Scanner.string_token (fuel : Nat) (s : Scanner) : Res (Token × Scanner) :=
  match Scanner.string_loop fuel s with
  | Res.ok s2 =>
    if s2.is_at_end then Res.ok (s2.token TokenType.Error, s2)
    else
      let s3 : Scanner := { s2 with current := s2.current + 1 }
      Res.ok (s3.token TokenType.String, s3)
  | Res.rtError e => Res.rtError e
  | Res.panic => Res.panic
  | Res.fuel => Res.fuel

/-- scanner.rs Scanner::scan. Note the digit dispatch arm covers only the
bytes 49 to 57 (the characters 1 to 9), exactly as in the source; byte 48
(the character 0) falls through to the Error arm. The call to
skip_whitespace precedes the is_at_end test, exactly as in the source. -/
def Scanner.scan (s0 : Scanner) : Res (Token × Scanner) :=
  let fuel := s0.source.length + 1
  match Scanner.skip_whitespace fuel s0 with
  | Res.ok s1 =>
    let sA : Scanner := { s1 with start := s1.current }
    if sA.is_at_end then Res.ok (sA.token TokenType.Eof, sA)
    else
      match sA.source.get? sA.current with
      | none => Res.panic
      | some c =>
        let s : Scanner := { sA with current := sA.current + 1 }
        if is_alpha c then Scanner.identifier_token fuel s
        else if c == 40 then Res.ok (s.token TokenType.LeftParen, s)
        else if c == 41 then Res.ok (s.token TokenType.RightParen, s)
        else if c == 123 then Res.ok (s.token TokenType.LeftBrace, s)
        else if c == 125 then Res.ok (s.token TokenType.RightBrace, s)
        else if c == 59 then Res.ok (s.token TokenType.SemiColon, s)
        else if c == 44 then Res.ok (s.token TokenType.Comma, s)
        else if c == 46 then Res.ok (s.token TokenType.Dot, s)
        else if c == 45 then Res.ok (s.token TokenType.Minus, s)
        else if c == 43 then Res.ok (s.token TokenType.Plus, s)
        else if c == 47 then Res.ok (s.token TokenType.Slash, s)
        else if c == 42 then Res.ok (s.token TokenType.Star, s)
        else if c == 33 then
          let r := s.match_byte 61
          Res.ok (r.2.token (if r.1 then TokenType.BangEqual else TokenType.Bang), r.2)
        else if c == 61 then
          let r := s.match_byte 61
          Res.ok (r.2.token (if r.1 then TokenType.EqualEqual else TokenType.Equal), r.2)
        else if c == 60 then
          let r := s.match_byte 61
          Res.ok (r.2.token (if r.1 then TokenType.LessEqual else TokenType.Less), r.2)
        else if c == 62 then
          let r := s.match_byte 61
          Res.ok (r.2.token (if r.1 then TokenType.GreaterEqual else TokenType.Greater), r.2)
        else if c == 34 then Scanner.string_token fuel s
        else if 49 ≤ c && c ≤ 57 then Scanner.number_token fuel s
        else Res.ok (s.token TokenType.Error, s)
  | Res.rtError e => Res.rtError e
  | Res.panic => Res.panic
  | Res.fuel => Res.fuel

/-- op_code.rs OpCode, together with the variants vm.rs dispatches on
(OpCall, OpClosure, OpGetUpValue, OpSetUpValue, OpCloseUpvalue). -/
inductive OpCode where
  | opReturn
  | opConstant (k : Nat)
  | opNegate | opAdd | opSubtract | opMultiply | opDivide
  | opNil | opTrue | opFalse | opNot | opEqual | opGreater | opLess
  | opPrint | opPop
  | opDefineGlobal (k : Nat)
  | opGetGlobal (k : Nat)
  | opSetGlobal (k : Nat)
  | opGetLocal (k : Nat)
  | opSetLocal (k : Nat)
  | opJumpIfFalse (k : Nat)
  | opJump (k : Nat)
  | opLoop (k : Nat)
  | opCall (k : Nat)
  | opClosure
  | opGetUpValue (k : Nat)
  | opSetUpValue (k : Nat)
  | opCloseUpvalue
deriving DecidableEq

/-- chunk.rs Value. The f64 payload of Double is abstracted to Int and the
heap-shared code objects to opaque identities; no settled claim depends on
either payload, only on the constructor tags and String contents. -/
inductive Value where
  | bool : Bool → Value
  | double : Int → Value
  | nil : Value
  | string : String → Value
  | function : Nat → Value
  | closure : Nat → Value
  | nativeFunction : Nat → Value
deriving DecidableEq

/-- chunk.rs From Value for bool (truthiness): Nil and Bool false are
falsy, everything else truthy. -/
def valueToBool : Value → Bool
  | Value.bool v => v
  | Value.nil => false
  | _ => true

/-- vm.rs CallFrame::get_stack_value: Vec::pop with an Err on empty. The
stack list is kept in Vec order, bottom of the stack first. -/
def get_stack_value (s : List Value) : Res (Value × List Value) :=
  match s.getLast? with
  | none => Res.rtError EMPTY_STACK
  | some v => Res.ok (v, s.dropLast)

/-- vm.rs CallFrame::peek: explicit length check panics when fewer than
distance + 1 values are on the stack, otherwise reads slot
len - 1 - distance. -/
def framePeek (s : List Value) (distance : Nat) : Res Value :=
  if s.length < distance + 1 then Res.panic
  else
    match s.get? (s.length - 1 - distance) with
    | some v => Res.ok v
    | none => Res.panic

/-- util.rs binary_op macro body: peek(0) must be Double (bound right_v),
peek(1) must be Double (bound left_v), else a runtime error; on success the
code FIRST pushes the combined value and THEN pops twice, exactly as
written in the macro. -/
def binary_op (mk : Int → Int → Value) (s : List Value) : Res (List Value) :=
  match framePeek s 0 with
  | Res.ok (Value.double right_v) =>
    match framePeek s 1 with
    | Res.ok (Value.double left_v) =>
      match get_stack_value (s ++ [mk left_v right_v]) with
      | Res.ok (_, s2) =>
        match get_stack_value s2 with
        | Res.ok (_, s3) => Res.ok s3
        | Res.rtError e => Res.rtError e
        | Res.panic => Res.panic
        | Res.fuel => Res.fuel
      | Res.rtError e => Res.rtError e
      | Res.panic => Res.panic
      | Res.fuel => Res.fuel
    | Res.ok _ => Res.rtError OPERAND_MUST_BE_NUMBER
    | Res.rtError e => Res.rtError e
    | Res.panic => Res.panic
    | Res.fuel => Res.fuel
  | Res.ok _ => Res.rtError OPERAND_MUST_BE_NUMBER
  | Res.rtError e => Res.rtError e
  | Res.panic => Res.panic
  | Res.fuel => Res.fuel

/-- vm.rs OpAdd arm. The source binds left_v to peek(0) (the TOP of the
stack) and right_v to peek(1), pops both and pushes left_v + right_v; when
peek(0) is a String but peek(1) is not, the inner if-let has no else
branch, so nothing at all happens; when peek(0) is not a String the
binary_op macro runs. -/
def opAdd (s : List Value) : Res (List Value) :=
  match framePeek s 0 with
  | Res.ok (Value.string left_v) =>
    match framePeek s 1 with
    | Res.ok (Value.string right_v) =>
      match get_stack_value s with
      | Res.ok (_, s2) =>
        match get_stack_value s2 with
        | Res.ok (_, s3) => Res.ok (s3 ++ [Value.string (left_v ++ right_v)])
        | Res.rtError e => Res.rtError e
        | Res.panic => Res.panic
        | Res.fuel => Res.fuel
      | Res.rtError e => Res.rtError e
      | Res.panic => Res.panic
      | Res.fuel => Res.fuel
    | Res.ok _ => Res.ok s
    | Res.rtError e => Res.rtError e
    | Res.panic => Res.panic
    | Res.fuel => Res.fuel
  | Res.ok _ => binary_op (fun l r => Value.double (l + r)) s
  | Res.rtError e => Res.rtError e
  | Res.panic => Res.panic
  | Res.fuel => Res.fuel

/-- vm.rs OpSubtract arm. -/
def opSubtract (s : List Value) : Res (List Value) :=
  binary_op (fun l r => Value.double (l - r)) s

/-- vm.rs OpMultiply arm. -/
def opMultiply (s : List Value) : Res (List Value) :=
  binary_op (fun l r => Value.double (l * r)) s

/-- vm.rs OpDivide arm (division on the abstracted payload). -/
def opDivide (s : List Value) : Res (List Value) :=
  binary_op (fun l r => Value.double (l / r)) s

/-- vm.rs OpNegate arm: pops, requires Double, pushes the negation. -/
def opNegate (s : List Value) : Res (List Value) :=
  match get_stack_value s with
  | Res.ok (Value.double v, s2) => Res.ok (s2 ++ [Value.double (-v)])
  | Res.ok _ => Res.rtError OPERAND_MUST_BE_NUMBER
  | Res.rtError e => Res.rtError e
  | Res.panic => Res.panic
  | Res.fuel => Res.fuel

/-- vm.rs OpNot arm, verbatim: pops a value, converts it to bool through
the truthiness conversion and pushes Bool of THAT bool — the source
performs no negation. -/
def opNot (s : List Value) : Res (List Value) :=
  match get_stack_value s with
  | Res.ok (v, s2) => Res.ok (s2 ++ [Value.bool (valueToBool v)])
  | Res.rtError e => Res.rtError e
  | Res.panic => Res.panic
  | Res.fuel => Res.fuel

/-- chunk.rs UpValue cell as used by vm.rs: a slot or heap location plus
the hoisted flag. -/
structure UpVal where
  location : Nat
  is_hoist : Bool
deriving DecidableEq

/-- The parts of vm.rs VM state that the OpReturn arm touches: the shared
value stack (Vec order, bottom first), the side heap of hoisted values and
the open-upvalue list. -/
structure VmSt where
  stack : List Value
  heap : List Value
  upvalues : List UpVal
deriving DecidableEq

/-- vm.rs OpReturn arm, the find + unwrap + mutate of the upvalue whose
location equals the popped slot index: mutates the FIRST matching cell in
place; none matching is an Option::unwrap panic. -/
def closeFirstUpvalue (raw newLoc : Nat) : List UpVal → Option (List UpVal)
  | [] => none
  | u :: rest =>
    if u.location == raw then some (⟨newLoc, true⟩ :: rest)
    else (closeFirstUpvalue raw newLoc rest).map (fun l => u :: l)

/-- The while loop of the vm.rs OpReturn arm, verbatim: it iterates WHILE
base ≤ stack length (one iteration more than draining to base would need),
each iteration computes raw_index = len - 1 (a usize underflow panic in a
debug build when the stack is empty), pops the top value, pushes it onto
the heap unconditionally, and unwraps the open upvalue whose location
equals raw_index (a panic when there is none). -/
def opReturnLoop (base : Nat) : Nat → VmSt → Res VmSt
  | 0, _ => Res.fuel
  | fuel + 1, st =>
    if base ≤ st.stack.length then
      if st.stack.length == 0 then Res.panic
      else
        let raw_index := st.stack.length - 1
        match get_stack_value st.stack with
        | Res.ok (v, s2) =>
          let heap2 := st.heap ++ [v]
          let index := heap2.length - 1
          match closeFirstUpvalue raw_index index st.upvalues with
          | none => Res.panic
          | some ups2 => opReturnLoop base fuel ⟨s2, heap2, ups2⟩
        | Res.rtError e => Res.rtError e
        | Res.panic => Res.panic
        | Res.fuel => Res.fuel
    else Res.ok st

/-- vm.rs OpReturn arm: pop the return value, run the close loop, drain the
stack from base upward, push the return value back. (The frame pop that
follows in the source touches no state modelled here; the claim is settled
before it is reached.) -/
def opReturn (base : Nat) (st : VmSt) : Res VmSt :=
  match get_stack_value st.stack with
  | Res.ok (value, s2) =>
    match opReturnLoop base (s2.length + 1) ⟨s2, st.heap, st.upvalues⟩ with
    | Res.ok st2 => Res.ok ⟨st2.stack.take base ++ [value], st2.heap, st2.upvalues⟩
    | Res.rtError e => Res.rtError e
    | Res.panic => Res.panic
    | Res.fuel => Res.fuel
  | Res.rtError e => Res.rtError e
  | Res.panic => Res.panic
  | Res.fuel => Res.fuel

/-- compiler.rs Local: name and scope depth (the source Local has no
captured flag of any kind). -/
structure Local where
  name : String
  depth : Nat
deriving DecidableEq

/-- chunk.rs Chunk: opcodes, constant pool and the parallel line table. -/
structure Chunk where
  codes : List OpCode
  values : List Value
  lines : List Nat
deriving DecidableEq

/-- chunk.rs Chunk::new. -/
def Chunk.empty : Chunk := ⟨[], [], []⟩

/-- The shared body of the chunk.rs add_op_* helpers: append the opcode and
its line. -/
def Chunk.add_op (ch : Chunk) (c : OpCode) (line : Nat) : Chunk :=
  { ch with codes := ch.codes ++ [c], lines := ch.lines ++ [line] }

/-- chunk.rs Chunk::add_value: push the constant, return its index. -/
def Chunk.add_value (ch : Chunk) (v : Value) : Chunk × Nat :=
  ({ ch with values := ch.values ++ [v] }, ch.values.length)

/-- compiler.rs Builder: chunk under construction, current scope depth and
the locals list (the source Builder has no upvalue list and no link to an
enclosing Builder). -/
structure Builder where
  chunk : Chunk
  scope_depth : Nat
  locals : List Local
deriving DecidableEq

/-- compiler.rs Builder::new: one initial local holding the function name
at depth 0. -/
def Builder.new (name : String) : Builder :=
  ⟨Chunk.empty, 0, [⟨name, 0⟩]⟩

/-- Iterator::position over a list: index of the first element satisfying
the test. -/
def position {α : Type} (p : α → Bool) : List α → Option Nat
  | [] => none
  | a :: l => if p a then some 0 else (position p l).map (fun n => n + 1)

/-- compiler.rs Compiler::resolve_local, verbatim: position of the first
name match in the REVERSED locals list; the search is over the whole list,
with no restriction to the current scope depth. -/
def resolve_local (locals : List Local) (name : String) : Option Nat :=
  position (fun l => l.name == name) locals.reverse

/-- compiler.rs Vec::remove on the locals list: removing at an index not
below the length is a Rust panic. -/
def list_remove {α : Type} (l : List α) (i : Nat) : Res (List α) :=
  if i < l.length then Res.ok (l.eraseIdx i) else Res.panic

/-- The while loop of compiler.rs Compiler::exit_scope, verbatim: while the
LAST local is deeper than the new scope depth, the source calls
locals.remove(locals.len()) — an index one past the end, which panics —
and only then would emit a Pop. -/
def exit_scope_loop (depth line : Nat) : Nat → List Local → Chunk → Res (List Local × Chunk)
  | 0, _, _ => Res.fuel
  | fuel + 1, locals, ch =>
    match locals.getLast? with
    | none => Res.panic
    | some last =>
      if depth < last.depth then
        match list_remove locals locals.length with
        | Res.ok locals2 => exit_scope_loop depth line fuel locals2 (ch.add_op OpCode.opPop line)
        | Res.rtError e => Res.rtError e
        | Res.panic => Res.panic
        | Res.fuel => Res.fuel
      else Res.ok (locals, ch)

/-- compiler.rs Compiler::exit_scope: decrement the scope depth (a u32
underflow panic in a debug build at depth 0), then pop leaving locals. -/
def exit_scope (b : Builder) (line : Nat) : Res Builder :=
  match b.scope_depth with
  | 0 => Res.panic
  | Nat.succ d =>
    match exit_scope_loop d line (b.locals.length + 1) b.locals b.chunk with
    | Res.ok (locals2, ch2) => Res.ok ⟨ch2, d, locals2⟩
    | Res.rtError e => Res.rtError e
    | Res.panic => Res.panic
    | Res.fuel => Res.fuel

/-- The compiler state that compiler.rs show_error touches: the builder,
the panic flag, and the diagnostics printed so far (modelled as the list of
messages). -/
structure CompSt where
  builder : Builder
  panic_mode : Bool
  printed : List String
deriving DecidableEq

/-- compiler.rs Compiler::show_error: suppressed while the panic flag is
set; otherwise sets it and prints the message. -/
def show_error (st : CompSt) (msg : String) : CompSt :=
  if st.panic_mode then st
  else { st with panic_mode := true, printed := st.printed ++ [msg] }

/-- compiler.rs Compiler::define_local_variable: any resolve_local hit —
at ANY scope depth — reports the duplicate-variable error and declares
nothing; otherwise the local is pushed at the current scope depth. -/
def define_local_variable (st : CompSt) (name : String) : CompSt :=
  match resolve_local st.builder.locals name with
  | some _ => show_error st ALREADY_VARIABLE_DELCARE
  | none =>
    { st with builder := { st.builder with
        locals := st.builder.locals ++ [⟨name, st.builder.scope_depth⟩] } }

/-- compiler.rs Compiler::parse_variable, projected onto the identifier
access it emits: resolve_local over the CURRENT builder only decides
between local and global opcodes; isAssign abstracts the assignment-
position test (precedence at most Assignment and a consumed equals token);
the expression compiled before a set is not modelled — only the variable
access opcode appended for this identifier. -/
def parse_variable (b : Builder) (name : String) (line : Nat) (isAssign : Bool) : Builder :=
  match resolve_local b.locals name with
  | none =>
    let r := b.chunk.add_value (Value.string name)
    if isAssign then { b with chunk := r.1.add_op (OpCode.opSetGlobal r.2) line }
    else { b with chunk := r.1.add_op (OpCode.opGetGlobal r.2) line }
  | some i =>
    if isAssign then { b with chunk := b.chunk.add_op (OpCode.opSetLocal i) line }
    else { b with chunk := b.chunk.add_op (OpCode.opGetLocal i) line }

/-- Classifier for upvalue access opcodes. -/
def is_upvalue_access : OpCode → Bool
  | OpCode.opGetUpValue _ => true
  | OpCode.opSetUpValue _ => true
  | _ => false

/-- main.rs usage message. -/
def usage_line : String := "Usage: rlox [path]"

/-- lib.rs run_file: opens and reads the file into a buffer and then does
nothing with it — no compilation, no execution; the function returns and
the process exit code is 0. Modelled on the successfully-read contents
(an unreadable file panics in the source, outside every claim here).
Result: lines printed, exit code. -/
def run_file (contents : String) : List String × Nat :=
  let _ := contents
  ([], 0)

/-- main.rs main: one argument (the program name alone) runs the empty
repl; two arguments run run_file on the named file, read through
read_source; otherwise the usage line is printed and main falls off the
end, so the process exits 0. Result: lines printed, exit code. -/
def mainFn (args : List String) (read_source : String → String) : List String × Nat :=
  if args.length = 1 then ([], 0)
  else if args.length = 2 then run_file (read_source (args.getD 1 ""))
  else ([usage_line], 0)

/-- Helper: Iterator::position finds an index whenever some member of the
list satisfies the test. -/
theorem position_isSome_of_mem {α : Type} (p : α → Bool) (l : List α) (a : α)
    (ha : a ∈ l) (hp : p a = true) : (position p l).isSome = true := by
  induction l with
  | nil => cases ha
  | cons x xs ih =>
    rcases List.mem_cons.mp ha with h | h
    · subst h
      simp [position, hp]
    · by_cases hx : p x = true
      · simp [position, hx]
      · have hs := ih h
        cases hpos : position p xs with
        | none => rw [hpos] at hs; simp at hs
        | some k => simp [position, hx, hpos]

/-- Claim C1: the claim says scanning at end of input is total and returns
an Eof token. In the code, Scanner::scan first calls skip_whitespace, whose
initial peek indexes the source without a bounds check, so at end of input
(empty source included) the scanner panics before the Eof branch is ever
reached: the claim fails on the code. -/
theorem C1_scan_at_end_panics :
    Scanner.scan ⟨[], 0, 0, 0⟩ = Res.panic ∧
    Scanner.scan ⟨bytes "x;", 2, 2, 0⟩ = Res.panic := by
  constructor
  · decide
  · decide

/-- Claim C2: the claim says OpReturn closes exactly the open upvalues with
slot at least base, truncates the stack to base and pushes the return
value. In the code the close loop runs while base ≤ stack length, pops
every value unconditionally and unwraps a lookup of an open upvalue at the
popped slot: with no matching open upvalue it panics (first conjunct,
base 1, claimed result would be stack [Nil, Double 7]), and with base 0 it
underflows len - 1 on the emptied stack (second conjunct). -/
theorem C2_return_panics :
    opReturn 1 ⟨[Value.nil, Value.double 2, Value.double 7], [], []⟩ = Res.panic ∧
    opReturn 0 ⟨[Value.double 7], [], []⟩ = Res.panic := by
  constructor
  · decide
  · decide

/-- Claim C3: the claim says a use of an enclosing function's local is
compiled to GetUpvalue/SetUpvalue with capture metadata. In the code a
fresh Builder (as parse_func_declaration installs for a nested function)
resolves such a name to none and parse_variable emits a global access
(first conjunct: the builder for fun inner with an outer local x), and in
general parse_variable never emits any upvalue access opcode (second
conjunct). -/
theorem C3_no_upvalue_resolution :
    (parse_variable (Builder.new "inner") "x" 7 false).chunk.codes = [OpCode.opGetGlobal 0] ∧
    ∀ (b : Builder) (name : String) (line : Nat) (a : Bool),
      ((parse_variable b name line a).chunk.codes.filter is_upvalue_access) =
        (b.chunk.codes.filter is_upvalue_access) := by
  constructor
  · decide
  · intro b name line a
    unfold parse_variable
    cases h : resolve_local b.locals name with
    | none =>
      cases a <;>
        simp [Chunk.add_op, Chunk.add_value, List.filter_append, is_upvalue_access]
    | some i =>
      cases a <;>
        simp [Chunk.add_op, List.filter_append, is_upvalue_access]

/-- Claim C4: the claim says OpAdd on two Strings concatenates in stack
order, peek(1) then peek(0), so foo below bar yields foobar. In the code
the OpAdd arm binds left_v to peek(0) — the top — and pushes
left_v + right_v, so foo below bar yields barfoo. -/
theorem C4_add_concat_swapped :
    opAdd [Value.string "foo", Value.string "bar"] =
      Res.ok [Value.string "barfoo"] := by
  decide

/-- Claim C5: the claim says OpNot pushes the negation of truthy(x). In the
code the OpNot arm pushes Bool(truthy(x)) with no negation: Nil gives
Bool(false) where the claim requires Bool(true), Bool(true) gives
Bool(true) where the claim requires Bool(false), and Double 0 (truthy)
gives Bool(true) where the claim requires Bool(false). -/
theorem C5_not_does_not_negate :
    opNot [Value.nil] = Res.ok [Value.bool false] ∧
    opNot [Value.bool true] = Res.ok [Value.bool true] ∧
    opNot [Value.double 0] = Res.ok [Value.bool true] := by
  refine ⟨?_, ?_, ?_⟩ <;> decide

/-- Claim C6: the claim says every arithmetic type mismatch raises a
runtime error, in particular OpAdd with a String on top of a non-String.
In the code that case falls into the inner if-let of the OpAdd arm, which
has no else branch: the instruction completes normally with the stack
unchanged and no error is raised. -/
theorem C6_add_string_over_number_is_silent :
    opAdd [Value.double 1, Value.string "s"] =
      Res.ok [Value.double 1, Value.string "s"] := by
  decide

/-- Claim C7: the claim says exiting a scope emits one Pop (or
CloseUpvalue) per leaving local and completes without failing. In the code
exit_scope removes each leaving local with locals.remove(locals.len()) —
an index one past the end — so the very first leaving local panics before
any Pop is emitted: here a builder leaving depth 1 with local a. -/
theorem C7_exit_scope_panics :
    exit_scope ⟨Chunk.empty, 1, [⟨"", 0⟩, ⟨"a", 1⟩]⟩ 3 = Res.panic := by
  decide

/-- Claim C8: the claim says a numeric literal whose integer part begins
with 0 scans to a Number token. In the code the digit dispatch arm of scan
covers only the bytes of 1 through 9, so the source 0 scans to an Error
token carrying the stray-character diagnostic. -/
theorem C8_zero_scans_to_error_token :
    Scanner.scan ⟨bytes "0", 0, 0, 0⟩ =
      Res.ok (⟨TokenType.Error, bytes "Unexpected character", 0⟩, ⟨bytes "0", 1, 0, 0⟩) := by
  decide

/-- Claim C9, counterexample: invoked with more than one command-line
argument (here two file arguments), main prints the usage line but the
process exit code is 0, not the non-zero code the claim requires. -/
theorem C9_counterexample :
    mainFn ["rlox", "a.lox", "b.lox"] (fun _ => "") = ([usage_line], 0) := by
  rfl

/-- Claim C9 as amended: the exit code is 0 for every invocation — run_file
reads the file and never compiles or executes it, so the 65 and 70 exit
codes cannot occur — and with more than one argument the usage line is
printed and the exit code is still 0. -/
theorem C9_amended_exit_always_zero :
    (∀ (args : List String) (f : String → String), (mainFn args f).2 = 0) ∧
    (∀ (a b c : String) (rest : List String) (f : String → String),
      mainFn (a :: b :: c :: rest) f = ([usage_line], 0)) := by
  constructor
  · intro args f
    unfold mainFn run_file
    split
    · rfl
    · split <;> rfl
  · intro a b c rest f
    have h1 : (a :: b :: c :: rest).length ≠ 1 := by simp
    have h2 : (a :: b :: c :: rest).length ≠ 2 := by simp
    unfold mainFn
    rw [if_neg h1, if_neg h2]

/-- Claim C10: declaring a local whose name matches ANY local already
declared in the same function — the resolve_local search spans every scope
depth, shallower enclosing depths included — reports the
duplicate-variable compile error and declares nothing. -/
theorem C10_duplicate_local_any_depth (st : CompSt) (name : String)
    (hpm : st.panic_mode = false)
    (hmem : ∃ l, l ∈ st.builder.locals ∧ l.name = name) :
    define_local_variable st name =
      { st with panic_mode := true,
                printed := st.printed ++ [ALREADY_VARIABLE_DELCARE] } := by
  obtain ⟨l, hl, hn⟩ := hmem
  have hrev : l ∈ st.builder.locals.reverse := List.mem_reverse.mpr hl
  have hp : (fun x : Local => x.name == name) l = true := by
    simp [hn]
  have hs := position_isSome_of_mem (fun x : Local => x.name == name)
    st.builder.locals.reverse l hrev hp
  cases hpos : position (fun x : Local => x.name == name) st.builder.locals.reverse with
  | none => rw [hpos] at hs; simp at hs
  | some k =>
    unfold define_local_variable resolve_local
    rw [hpos]
    simp [show_error, hpm]

/-- Witness for C10 at a concrete input: the existing local x sits at depth
1, strictly shallower than the current scope depth 2, and is still
rejected as a duplicate. -/
theorem C10_witness :
    define_local_variable ⟨⟨Chunk.empty, 2, [⟨"x", 1⟩]⟩, false, []⟩ "x" =
      ⟨⟨Chunk.empty, 2, [⟨"x", 1⟩]⟩, true, [ALREADY_VARIABLE_DELCARE]⟩ :=
  C10_duplicate_local_any_depth ⟨⟨Chunk.empty, 2, [⟨"x", 1⟩]⟩, false, []⟩ "x" rfl
    ⟨⟨"x", 1⟩, List.mem_cons_self _ _, rfl⟩

end Rlox
